import Mathlib

/-!
Verification of the play-by-play aggregation pipeline
(`src/preprocessing/generate_probabilities.py`) and of the CORS forwarder
(`src/proxy-server.py`).

The pandas data frame is embedded as a `Table`: a `Schema` recording which
optional columns exist, plus a list of `Row`s whose fields are optional
values (`none` models a NaN cell).  Column assignments such as
`pbp[dist_bucket] = ...` are modelled as functions returning the updated
table, so the mutation of the shared frame is observable.  `groupby` is
modelled with its pandas defaults: rows whose grouping key contains a null
component are dropped, groups are emitted sorted by key (`sort=True`), the
`mean` aggregation skips null cells (and is null on an all-null column),
`first` returns the first non-null value, and `count` counts the non-null
`play_id` cells (the source data always carries a `play_id`, so this is the
group size).  `sort_values(ascending=False)` is modelled as a descending
sort that keeps null keys last (`na_position=last`); the model resolves
ties stably, a choice the program does not promise (its default sort kind
is quicksort, which pandas documents as unstable), so no theorem below
asserts any tie-order property of the program: the claims proved about
the sorted lists are membership, length and descending sortedness, which
hold under any tie resolution.  Rates are `Rat`; indicator cells are `Int` (0/1); textual cells are
`String` compared codepoint-wise by `lexLE` below, because the built-in
`String` order does not reduce in the kernel.
-/

/-! ### Codepoint-wise string order (models Python string comparison) -/

def lexLE : List Char → List Char → Bool
  | [], _ => true
  | _ :: _, [] => false
  | a :: as, b :: bs => if a = b then lexLE as bs else decide (a < b)

def strLE (a b : String) : Bool := lexLE a.data b.data

def strLT (a b : String) : Bool := strLE a b && !(decide (a = b))

/-! ### Data model -/

/-- Which optional columns the frame schema carries.  Columns that the
source accesses unconditionally (`down`, `ydstogo`, `play_type`, `posteam`,
`yardline_100`, `play_id`, the player name columns and `pass_length`) are
modelled as always present. -/
structure Schema where
  has_first_down : Bool
  has_touchdown : Bool
  has_first_down_converted : Bool
  has_complete_pass : Bool
  has_receiver_player_id : Bool
  has_rusher_player_id : Bool
  has_dist_bucket : Bool
  has_field_zone : Bool
deriving DecidableEq, Repr

/-- One play record.  `none` models a NaN cell. -/
structure Row where
  down : Option Int
  ydstogo : Option Int
  play_type : Option String
  posteam : Option String
  yardline_100 : Option Int
  first_down : Option Int
  touchdown : Option Int
  first_down_converted : Option Int
  complete_pass : Option Int
  pass_length : Option Int
  receiver_player_id : Option String
  receiver_player_name : Option String
  rusher_player_id : Option String
  rusher_player_name : Option String
  dist_bucket : Option String
  field_zone : Option String
deriving DecidableEq, Repr

structure Table where
  schema : Schema
  rows : List Row
deriving DecidableEq, Repr

def blankRow : Row :=
  { down := none, ydstogo := none, play_type := none, posteam := none,
    yardline_100 := none, first_down := none, touchdown := none,
    first_down_converted := none, complete_pass := none, pass_length := none,
    receiver_player_id := none, receiver_player_name := none,
    rusher_player_id := none, rusher_player_name := none,
    dist_bucket := none, field_zone := none }

/-! ### Result record shapes (one per calculator) -/

structure LeagueRate where
  down : Int
  distance : String
  play_type : String
  success_rate : Option Rat
  sample_size : Nat
deriving DecidableEq, Repr

structure TeamRate where
  team : String
  distance : String
  play_type : String
  success_rate : Option Rat
  sample_size : Nat
deriving DecidableEq, Repr

structure FieldRate where
  zone : String
  play_type : String
  conversion_rate : Option Rat
  td_rate : Option Rat
  sample_size : Nat
deriving DecidableEq, Repr

structure ReceiverStat where
  player_id : String
  player_name : Option String
  catch_rate : Option Rat
  conversion_rate : Option Rat
  targets : Nat
deriving DecidableEq, Repr

structure RusherStat where
  player_id : String
  player_name : Option String
  conversion_rate : Option Rat
  carries : Nat
deriving DecidableEq, Repr

structure PlayerRate where
  player_id : String
  player_name : Option String
  position : String
  conversion_rate : Option Rat
deriving DecidableEq, Repr

/-! ### Aggregation primitives -/

/-- Mean of the non-null cells of a 0/1 indicator column, as pandas
`mean` computes it (nulls skipped; an all-null column yields null). -/
def meanOpt (vals : List (Option Int)) : Option Rat :=
  let nn := vals.filterMap id
  if nn.length = 0 then none else some ((nn.sum : Rat) / (nn.length : Rat))

/-- Pandas `groupby(keys, sort=True)`: rows whose key has a null component
are dropped, one group per distinct key, groups sorted by key. -/
def groupBy {α κ : Type} [DecidableEq κ] (le : κ → κ → Bool) (key : α → Option κ)
    (rows : List α) : List (κ × List α) :=
  (List.insertionSort (fun k1 k2 => le k1 k2 = true) (rows.filterMap key).dedup).map
    (fun k => (k, rows.filter (fun r => decide (key r = some k))))

/-- Pandas `sort_values(by, ascending=False)`: descending sort on the
sort key, rows with a null key kept last.  The program uses the default
`kind=quicksort`, which pandas documents as unstable, so the relative
order of rows with equal keys is not a guarantee of the program; this
executable model has to pick some order and resolves ties stably.  Only
tie-order-insensitive properties of this function (membership, length,
descending sortedness) are asserted of the program. -/
def sortDescBy {α : Type} (rate : α → Option Rat) (l : List α) : List α :=
  List.insertionSort (fun a b => ((rate b).getD 0) ≤ ((rate a).getD 0))
      (l.filter (fun a => (rate a).isSome))
    ++ l.filter (fun a => (rate a).isNone)

/-- Descending order on optional sort keys: any value precedes a null key
(nulls are kept last), and non-null keys descend. -/
def rateGE (x y : Option Rat) : Prop :=
  match x, y with
  | _, none => True
  | none, some _ => False
  | some a, some b => b ≤ a

/-! ### Bucketizers (source lines 136-146 and 205-215) -/

def distance_bucket (yards : Option Int) : String :=
  match yards with
  | none => "medium"
  | some y => if y ≤ 3 then "short" else if y ≤ 6 then "medium"
      else if y ≤ 10 then "long" else "very_long"

def field_zone (yardline_100 : Option Int) : String :=
  match yardline_100 with
  | none => "mid_field"
  | some y => if y ≤ 10 then "red_zone" else if y ≤ 20 then "green_zone"
      else if y ≤ 50 then "mid_field" else "own_territory"

/-- The column assignment `pbp[dist_bucket] = pbp[ydstogo].apply(distance_bucket)`
applied to one row. -/
def withDistBucket (r : Row) : Row :=
  { r with dist_bucket := some (distance_bucket r.ydstogo) }

/-- The column assignment `pbp[field_zone] = pbp[yardline_100].apply(field_zone)`
applied to one row. -/
def withFieldZone (r : Row) : Row :=
  { r with field_zone := some (field_zone r.yardline_100) }

/-- In-place mutation of the shared frame performed by the league and team
calculators (source lines 148 and 181). -/
def addDistBucketCol (t : Table) : Table :=
  { schema := { t.schema with has_dist_bucket := true },
    rows := t.rows.map withDistBucket }

/-- In-place mutation of the shared frame performed by the field-position
calculator (source line 217). -/
def addFieldZoneCol (t : Table) : Table :=
  { schema := { t.schema with has_field_zone := true },
    rows := t.rows.map withFieldZone }

/-! ### League calculator (source lines 133-163) -/

def leagueKey (r : Row) : Option (Int × String × String) :=
  match r.down, r.dist_bucket, r.play_type with
  | some d, some b, some p => some (d, b, p)
  | _, _, _ => none

def leagueKeyLE (a b : Int × String × String) : Bool :=
  if a.1 = b.1 then
    (if a.2.1 = b.2.1 then strLE a.2.2 b.2.2 else strLT a.2.1 b.2.1)
  else decide (a.1 < b.1)

def mkLeagueRate (kg : (Int × String × String) × List Row) : LeagueRate :=
  { down := kg.1.1, distance := kg.1.2.1, play_type := kg.1.2.2,
    success_rate := meanOpt (kg.2.map (fun r => r.first_down_converted)),
    sample_size := kg.2.length }

def calculate_league_rates (pbp : Table) : List LeagueRate × Table :=
  let pbp2 := addDistBucketCol pbp
  let third_fourth := pbp2.rows.filter
    (fun r => decide (r.down = some 3) || decide (r.down = some 4))
  let rates := (groupBy leagueKeyLE leagueKey third_fourth).map mkLeagueRate
  (rates.filter (fun r => decide (10 ≤ r.sample_size)), pbp2)

/-! ### Team calculator (source lines 166-199).  The trailing null-team
filter of the source (line 197) is a no-op here: grouping already dropped
every row with a null `posteam`, exactly as pandas does. -/

def teamKey (r : Row) : Option (String × String × String) :=
  match r.posteam, r.dist_bucket, r.play_type with
  | some t, some b, some p => some (t, b, p)
  | _, _, _ => none

def teamKeyLE (a b : String × String × String) : Bool :=
  if a.1 = b.1 then
    (if a.2.1 = b.2.1 then strLE a.2.2 b.2.2 else strLT a.2.1 b.2.1)
  else strLT a.1 b.1

def mkTeamRate (kg : (String × String × String) × List Row) : TeamRate :=
  { team := kg.1.1, distance := kg.1.2.1, play_type := kg.1.2.2,
    success_rate := meanOpt (kg.2.map (fun r => r.first_down_converted)),
    sample_size := kg.2.length }

def calculate_team_rates (pbp : Table) : List TeamRate × Table :=
  let pbp2 := addDistBucketCol pbp
  let third_downs := pbp2.rows.filter (fun r => decide (r.down = some 3))
  let rates := (groupBy teamKeyLE teamKey third_downs).map mkTeamRate
  (rates.filter (fun r => decide (5 ≤ r.sample_size)), pbp2)

/-! ### Field-position calculator (source lines 202-233) -/

def fieldKey (r : Row) : Option (String × String) :=
  match r.field_zone, r.play_type with
  | some z, some p => some (z, p)
  | _, _ => none

def fieldKeyLE (a b : String × String) : Bool :=
  if a.1 = b.1 then strLE a.2 b.2 else strLT a.1 b.1

/-- The assignment `third_downs[touchdown] = 0` applied to one row of the
copied subset (source line 223). -/
def withZeroTouchdown (r : Row) : Row := { r with touchdown := some 0 }

def mkFieldRate (kg : (String × String) × List Row) : FieldRate :=
  { zone := kg.1.1, play_type := kg.1.2,
    conversion_rate := meanOpt (kg.2.map (fun r => r.first_down_converted)),
    td_rate := meanOpt (kg.2.map (fun r => r.touchdown)),
    sample_size := kg.2.length }

/-- The third-down subset the field-position calculator groups, with the
touchdown column filled with zeroes when the schema lacks it. -/
def fieldRows (pbp2 : Table) : List Row :=
  let third_downs := pbp2.rows.filter (fun r => decide (r.down = some 3))
  if pbp2.schema.has_touchdown then third_downs
  else third_downs.map withZeroTouchdown

def calculate_field_position_impact (pbp : Table) : List FieldRate × Table :=
  let pbp2 := addFieldZoneCol pbp
  let rates := (groupBy fieldKeyLE fieldKey (fieldRows pbp2)).map mkFieldRate
  (rates, pbp2)

/-! ### Player calculator (source lines 236-295).  The null-id filters of
the source (lines 264 and 284) are no-ops here: grouping already dropped
every row with a null player id, exactly as pandas does. -/

/-- Derivation of a missing completion indicator from `pass_length`
(source line 249). -/
def withDerivedCompletePass (r : Row) : Row :=
  { r with complete_pass := some (if r.pass_length.isSome then 1 else 0) }

def thirdDownPasses (t : Table) : List Row :=
  t.rows.filter (fun r => decide (r.down = some 3) && decide (r.play_type = some "pass"))

def thirdDownRuns (t : Table) : List Row :=
  t.rows.filter (fun r => decide (r.down = some 3) && decide (r.play_type = some "run"))

def receiverRows (t : Table) : List Row :=
  if t.schema.has_complete_pass then thirdDownPasses t
  else (thirdDownPasses t).map withDerivedCompletePass

def mkReceiverStat (kg : String × List Row) : ReceiverStat :=
  { player_id := kg.1,
    player_name := (kg.2.filterMap (fun r => r.receiver_player_name)).head?,
    catch_rate := meanOpt (kg.2.map (fun r => r.complete_pass)),
    conversion_rate := meanOpt (kg.2.map (fun r => r.first_down_converted)),
    targets := kg.2.length }

/-- Receiver groups surviving the target and name filters, in grouping
order; this is the list the descending sort is applied to. -/
def receiverStatsFiltered (t : Table) : List ReceiverStat :=
  (((groupBy strLE (fun r => r.receiver_player_id) (receiverRows t)).map mkReceiverStat).filter
      (fun s => decide (10 ≤ s.targets))).filter
    (fun s => s.player_name.isSome)

def receiverStatsSorted (t : Table) : List ReceiverStat :=
  (sortDescBy (fun s => s.conversion_rate) (receiverStatsFiltered t)).take 50

def receiverData (t : Table) : List PlayerRate :=
  (receiverStatsSorted t).map
    (fun s => { player_id := s.player_id, player_name := s.player_name,
                position := "WR", conversion_rate := s.conversion_rate })

def mkRusherStat (kg : String × List Row) : RusherStat :=
  { player_id := kg.1,
    player_name := (kg.2.filterMap (fun r => r.rusher_player_name)).head?,
    conversion_rate := meanOpt (kg.2.map (fun r => r.first_down_converted)),
    carries := kg.2.length }

def rusherStatsFiltered (t : Table) : List RusherStat :=
  (((groupBy strLE (fun r => r.rusher_player_id) (thirdDownRuns t)).map mkRusherStat).filter
      (fun s => decide (10 ≤ s.carries))).filter
    (fun s => s.player_name.isSome)

def rusherStatsSorted (t : Table) : List RusherStat :=
  (sortDescBy (fun s => s.conversion_rate) (rusherStatsFiltered t)).take 50

/-- The rusher sub-pipeline: empty when the rusher id column is absent
(source lines 273-289). -/
def rusherData (t : Table) : List PlayerRate :=
  if t.schema.has_rusher_player_id then
    (rusherStatsSorted t).map
      (fun s => { player_id := s.player_id, player_name := s.player_name,
                  position := "RB", conversion_rate := s.conversion_rate })
  else []

def receiverMissingWarning : String :=
  "Warning: receiver_player_id column not found, skipping player stats"

/-- Source lines 236-295.  Returns (result, warnings, frame): the player
calculator mutates nothing (it works on copies), so the frame is returned
unchanged.  When the receiver id column is absent the function returns
early with an empty result and a warning, before the rusher sub-pipeline
is reached. -/
def calculate_player_rates (pbp : Table) : List PlayerRate × List String × Table :=
  if pbp.schema.has_receiver_player_id = false then
    ([], [receiverMissingWarning], pbp)
  else
    (receiverData pbp ++ rusherData pbp, [], pbp)

/-! ### Loader and pipeline (source lines 20-130) -/

/-- Derivation of a missing `first_down_converted` column from the
`first_down` and `touchdown` columns (source lines 121-124); pandas
equality with 1 is false on a NaN cell. -/
def deriveFdcRow (r : Row) : Row :=
  { r with
    first_down_converted :=
      some (if r.first_down = some 1 ∨ r.touchdown = some 1 then 1 else 0) }

def deriveFdc (t : Table) : Table :=
  { schema := { t.schema with has_first_down_converted := true },
    rows := t.rows.map deriveFdcRow }

/-- The two filters of source lines 115-116. -/
def filterPlays (t : Table) : Table :=
  { schema := t.schema,
    rows := (t.rows.filter (fun r =>
        decide (r.play_type = some "pass") || decide (r.play_type = some "run"))).filter
      (fun r => decide (r.down = some 1) || decide (r.down = some 2) ||
        decide (r.down = some 3) || decide (r.down = some 4)) }

/-- Source lines 99-130.  The provider fetches are supplied as values: the
bare inner `except` catches a failed 2025 fetch and falls back to 2024; any
other exception (a failed 2024 fetch, or the KeyError raised by the
`first_down_converted` derivation when the `first_down` or `touchdown`
column is also missing) reaches the outer handler, which returns `None`. -/
def load_play_by_play_data (fetch2025 fetch2024 : Except String Table) :
    Option (Table × Int) :=
  match (match fetch2025 with
         | .ok t => some (t, (2025 : Int))
         | .error _ =>
            match fetch2024 with
            | .ok t => some (t, (2024 : Int))
            | .error _ => none) with
  | none => none
  | some (pbp, season) =>
    let pbp := filterPlays pbp
    if pbp.schema.has_first_down_converted then some (pbp, season)
    else if pbp.schema.has_first_down && pbp.schema.has_touchdown then
      some (deriveFdc pbp, season)
    else none

structure Metadata where
  description : String
  source : String
  note : String
deriving DecidableEq, Repr

structure Output where
  generated_at : String
  season : Int
  total_plays : Nat
  league_conversion_rates : List LeagueRate
  team_conversion_rates : List TeamRate
  field_position_impact : List FieldRate
  player_success_rates : List PlayerRate
  metadata : Metadata
deriving DecidableEq, Repr

/-- Every field of the output document except the wall-clock timestamp. -/
def Output.sansTimestamp (o : Output) :
    Int × Nat × List LeagueRate × List TeamRate × List FieldRate × List PlayerRate × Metadata :=
  (o.season, o.total_plays, o.league_conversion_rates, o.team_conversion_rates,
   o.field_position_impact, o.player_success_rates, o.metadata)

/-- Source lines 20-96 (`main`).  `ts` stands for `datetime.now()`, the
only run-dependent input besides the fetched data.  `.error ()` models
`sys.exit(1)` with no output file written: the write at line 80 is only
reached after a successful load and the four calculator calls. -/
def runPipeline (ts : String) (fetch2025 fetch2024 : Except String Table) :
    Except Unit Output :=
  match load_play_by_play_data fetch2025 fetch2024 with
  | none => .error ()
  | some (pbp, season) =>
    let p1 := calculate_league_rates pbp
    let p2 := calculate_team_rates p1.2
    let p3 := calculate_field_position_impact p2.2
    let p4 := calculate_player_rates p3.2
    .ok { generated_at := ts, season := season, total_plays := p4.2.2.rows.length,
          league_conversion_rates := p1.1,
          team_conversion_rates := p2.1,
          field_position_impact := p3.1,
          player_success_rates := p4.1,
          metadata := { description := "NFL probability data for live game simulator",
                        source := "nflverse/nfl_data_py",
                        note := "For entertainment purposes only" } }

/-! ### Machinery for order-independence of the calculators (claim C1) -/

inductive CalcId : Type
  | league
  | team
  | fieldpos
  | player
deriving DecidableEq, Repr

inductive AnyResult : Type
  | league (l : List LeagueRate)
  | team (l : List TeamRate)
  | fieldpos (l : List FieldRate)
  | player (l : List PlayerRate)
deriving DecidableEq, Repr

def runCalc : CalcId → Table → AnyResult × Table
  | .league, t => let p := calculate_league_rates t; (.league p.1, p.2)
  | .team, t => let p := calculate_team_rates t; (.team p.1, p.2)
  | .fieldpos, t => let p := calculate_field_position_impact t; (.fieldpos p.1, p.2)
  | .player, t => let p := calculate_player_rates t; (.player p.1, p.2.2)

/-- Run the calculators in the given order, threading the shared (mutable)
frame through, recording the result each one produced. -/
def runOrder : List CalcId → Table → List (CalcId × AnyResult) × Table
  | [], t => ([], t)
  | c :: cs, t =>
    let p := runCalc c t
    let q := runOrder cs p.2
    ((c, p.1) :: q.1, q.2)

/-- The data part of a row: every column except the two derived bucket
columns that calculators write. -/
def Row.stripDerived (r : Row) : Row :=
  { r with dist_bucket := none, field_zone := none }

/-- The data part of the schema: every flag except the two derived bucket
columns. -/
def Schema.stripDerived (s : Schema) : Schema :=
  { s with has_dist_bucket := false, has_field_zone := false }

/-- A row transformation that can only touch the two derived bucket
columns. -/
def preservesData (f : Row → Row) : Prop :=
  ∀ r : Row, (f r).down = r.down ∧ (f r).ydstogo = r.ydstogo ∧
    (f r).play_type = r.play_type ∧ (f r).posteam = r.posteam ∧
    (f r).yardline_100 = r.yardline_100 ∧ (f r).first_down = r.first_down ∧
    (f r).touchdown = r.touchdown ∧
    (f r).first_down_converted = r.first_down_converted ∧
    (f r).complete_pass = r.complete_pass ∧ (f r).pass_length = r.pass_length ∧
    (f r).receiver_player_id = r.receiver_player_id ∧
    (f r).receiver_player_name = r.receiver_player_name ∧
    (f r).rusher_player_id = r.rusher_player_id ∧
    (f r).rusher_player_name = r.rusher_player_name

/-! ### The CORS forwarder (`src/proxy-server.py`) -/

def hexVal (c : Char) : Option Nat :=
  if '0' ≤ c ∧ c ≤ '9' then some (c.toNat - 48)
  else if 'a' ≤ c ∧ c ≤ 'f' then some (c.toNat - 87)
  else if 'A' ≤ c ∧ c ≤ 'F' then some (c.toNat - 55)
  else none

/-- Percent-decoding as `urllib.parse.unquote` performs it on the
code points this development uses: a percent sign followed by two hex
digits becomes the encoded character, anything else is left alone. -/
def unquoteChars : List Char → List Char
  | [] => []
  | '%' :: a :: b :: rest =>
    match hexVal a, hexVal b with
    | some x, some y => Char.ofNat (16 * x + y) :: unquoteChars rest
    | _, _ => '%' :: unquoteChars (a :: b :: rest)
  | c :: rest => c :: unquoteChars rest

def unquote (s : String) : String := ⟨unquoteChars s.data⟩

/-- Python substring containment, as in `if ?url= in self.path`. -/
def hasSubstr (needle : List Char) : List Char → Bool
  | [] => needle.isEmpty
  | c :: rest => needle.isPrefixOf (c :: rest) || hasSubstr needle rest

/-- Everything after the first occurrence of `needle`, as in
`path.split(needle, 1)[1]` when the needle occurs. -/
def afterFirst (needle : List Char) : List Char → List Char
  | [] => []
  | c :: rest =>
    if needle.isPrefixOf (c :: rest) then (c :: rest).drop needle.length
    else afterFirst needle rest

/-- The upstream URL the forwarder extracts from a request path. -/
def requestedUrl (path : String) : String :=
  unquote ⟨afterFirst "?url=".data path.data⟩

structure HttpResponse where
  status : Nat
  headers : List (String × String)
  body : Option String
deriving DecidableEq, Repr

/-- Source lines 14-19 (`_set_cors_headers`). -/
def corsHeaders : List (String × String) :=
  [("Access-Control-Allow-Origin", "*"),
   ("Access-Control-Allow-Methods", "GET, POST, OPTIONS"),
   ("Access-Control-Allow-Headers", "*"),
   ("Access-Control-Max-Age", "3600")]

/-- Source lines 21-60.  `fetch url ua` stands for `urllib.request.urlopen`
on a request for `url` carrying user-agent header `ua`. -/
def do_GET (fetch : String → String → Except String String) (path : String) :
    HttpResponse :=
  if hasSubstr "?url=".data path.data then
    match fetch (requestedUrl path) "Mozilla/5.0" with
    | .ok data =>
      { status := 200, headers := corsHeaders ++ [("Content-Type", "application/json")],
        body := some data }
    | .error e =>
      { status := 500, headers := corsHeaders ++ [("Content-Type", "text/plain")],
        body := some ("Proxy error: " ++ e) }
  else
    { status := 400, headers := corsHeaders ++ [("Content-Type", "text/plain")],
      body := some "Missing \x27url\x27 parameter" }

/-- Source lines 62-66. -/
def do_OPTIONS : HttpResponse :=
  { status := 200, headers := corsHeaders, body := none }

/-! ### Concrete tables used by witnesses and counterexamples -/

/-- A schema carrying every optional source column (and, as for any table
arriving from the provider, neither derived bucket column). -/
def fullSchema : Schema :=
  { has_first_down := true, has_touchdown := true, has_first_down_converted := true,
    has_complete_pass := true, has_receiver_player_id := true, has_rusher_player_id := true,
    has_dist_bucket := false, has_field_zone := false }

/-- A third-down pass play, two yards to go, for team ABC. -/
def wPassRow (fdc : Int) : Row :=
  { blankRow with down := some 3, ydstogo := some 2, play_type := some "pass",
                  posteam := some "ABC", first_down_converted := some fdc }

/-- Twenty third-down passes at distance two, fifteen converted
(scenario A of the specification). -/
def scenA : Table :=
  { schema := fullSchema,
    rows := List.replicate 15 (wPassRow 1) ++ List.replicate 5 (wPassRow 0) }

/-- An empty table whose schema has no distance-bucket column yet. -/
def exC1 : Table := { schema := fullSchema, rows := [] }

/-- A third-down run credited to rusher R1. -/
def wRunRow (fdc : Int) : Row :=
  { blankRow with down := some 3, play_type := some "run",
                  rusher_player_id := some "R1", rusher_player_name := some "Ron",
                  first_down_converted := some fdc }

/-- Ten third-down carries by one rusher, but no receiver id column in the
schema. -/
def exC2 : Table :=
  { schema := { fullSchema with has_receiver_player_id := false },
    rows := List.replicate 10 (wRunRow 1) }

/-- A third-down target of receiver `pid`. -/
def wRecRow (pid pname : String) (fdc : Int) : Row :=
  { blankRow with down := some 3, play_type := some "pass",
                  receiver_player_id := some pid, receiver_player_name := some pname,
                  complete_pass := some 1, first_down_converted := some fdc }

/-- Receiver B is targeted first in the source, receiver A later; both end
with ten targets and the same conversion rate of one half. -/
def exC3 : Table :=
  { schema := fullSchema,
    rows := List.replicate 5 (wRecRow "B" "Bob" 1) ++ List.replicate 5 (wRecRow "B" "Bob" 0)
      ++ List.replicate 5 (wRecRow "A" "Al" 1) ++ List.replicate 5 (wRecRow "A" "Al" 0) }

/-- A source table with no touchdown column and no first-down-converted
column (the first-down column is present). -/
def exC6bad : Table :=
  { schema := { fullSchema with has_touchdown := false, has_first_down_converted := false },
    rows := [wPassRow 1] }

/-- A source table with no touchdown column but with a first-down-converted
column. -/
def exC6ok : Table :=
  { schema := { fullSchema with has_touchdown := false },
    rows := [wPassRow 1] }

/-- A single third-down pass play: a field-position group of size one. -/
def exSmall : Table := { schema := fullSchema, rows := [wPassRow 1] }

/-- The output document a run produces from an empty table under the
fallback season. -/
def outC7 : Output :=
  { generated_at := "w7", season := 2024, total_plays := 0,
    league_conversion_rates := [], team_conversion_rates := [],
    field_position_impact := [], player_success_rates := [],
    metadata := { description := "NFL probability data for live game simulator",
                  source := "nflverse/nfl_data_py",
                  note := "For entertainment purposes only" } }

/-! ## Lemmas about the string order -/

theorem lexLE_total (a b : List Char) : lexLE a b = true ∨ lexLE b a = true := by
  induction a generalizing b with
  | nil => left; rfl
  | cons x xs ih =>
    cases b with
    | nil => right; rfl
    | cons y ys =>
      by_cases hxy : x = y
      · subst hxy
        rcases ih ys with h | h
        · left; simp [lexLE, h]
        · right; simp [lexLE, h]
      · rcases lt_trichotomy x y with h | h | h
        · left; simp [lexLE, hxy, h]
        · exact absurd h hxy
        · right
          have hne : y ≠ x := fun e => hxy e.symm
          simp [lexLE, hne, h]

theorem lexLE_trans {a b c : List Char} (h1 : lexLE a b = true) (h2 : lexLE b c = true) :
    lexLE a c = true := by
  induction a generalizing b c with
  | nil => rfl
  | cons x xs ih =>
    cases b with
    | nil => simp [lexLE] at h1
    | cons y ys =>
      cases c with
      | nil => simp [lexLE] at h2
      | cons z zs =>
        by_cases hxy : x = y
        · subst hxy
          by_cases hyz : x = z
          · subst hyz
            simp only [lexLE, if_pos rfl] at h1 h2 ⊢
            exact ih h1 h2
          · simp only [lexLE, if_neg hyz] at h2 ⊢
            exact h2
        · simp only [lexLE, if_neg hxy, decide_eq_true_eq] at h1
          by_cases hyz : y = z
          · subst hyz
            simp only [lexLE, if_neg hxy, decide_eq_true_eq]
            exact h1
          · simp only [lexLE, if_neg hyz, decide_eq_true_eq] at h2
            have hxz : x < z := lt_trans h1 h2
            simp [lexLE, ne_of_lt hxz, hxz]

theorem strLE_total (a b : String) : strLE a b = true ∨ strLE b a = true :=
  lexLE_total a.data b.data

theorem strLE_trans {a b c : String} (h1 : strLE a b = true) (h2 : strLE b c = true) :
    strLE a c = true :=
  lexLE_trans h1 h2

/-! ## Lemmas about groupBy -/

theorem mem_groupBy_iff {α κ : Type} [DecidableEq κ] (le : κ → κ → Bool) (key : α → Option κ)
    (rows : List α) (k : κ) (g : List α) :
    (k, g) ∈ groupBy le key rows ↔
      (∃ r ∈ rows, key r = some k) ∧
        g = rows.filter (fun r => decide (key r = some k)) := by
  simp only [groupBy, List.mem_map, List.mem_insertionSort, List.mem_dedup, List.mem_filterMap,
    Prod.mk.injEq]
  constructor
  · rintro ⟨k2, hk2, rfl, rfl⟩
    exact ⟨hk2, rfl⟩
  · rintro ⟨⟨r, hr, hkr⟩, rfl⟩
    exact ⟨k, ⟨r, hr, hkr⟩, rfl, rfl⟩

theorem groupBy_member_key {α κ : Type} [DecidableEq κ] {le : κ → κ → Bool}
    {key : α → Option κ} {rows : List α} {k : κ} {g : List α}
    (h : (k, g) ∈ groupBy le key rows) : ∀ r ∈ g, key r = some k := by
  rcases (mem_groupBy_iff le key rows k g).mp h with ⟨-, rfl⟩
  intro r hr
  simpa using (List.mem_filter.mp hr).2

theorem groupBy_group_ne_nil {α κ : Type} [DecidableEq κ] {le : κ → κ → Bool}
    {key : α → Option κ} {rows : List α} {k : κ} {g : List α}
    (h : (k, g) ∈ groupBy le key rows) : g ≠ [] := by
  rcases (mem_groupBy_iff le key rows k g).mp h with ⟨⟨r, hr, hkr⟩, rfl⟩
  intro hnil
  have : r ∈ rows.filter (fun r => decide (key r = some k)) :=
    List.mem_filter.mpr ⟨hr, by simp [hkr]⟩
  simp [hnil] at this

theorem groupBy_map {α β κ : Type} [DecidableEq κ] (le : κ → κ → Bool) (key : β → Option κ)
    (f : α → β) (l : List α) :
    groupBy le key (l.map f) =
      (groupBy le (fun a => key (f a)) l).map (fun kg => (kg.1, kg.2.map f)) := by
  unfold groupBy
  rw [List.filterMap_map, List.map_map]
  apply List.map_congr_left
  intro k hk
  simp only [Function.comp]
  rw [List.filter_map]
  rfl

theorem groupBy_congr {α κ : Type} [DecidableEq κ] (le : κ → κ → Bool)
    {key1 key2 : α → Option κ} {rows : List α} (h : ∀ r ∈ rows, key1 r = key2 r) :
    groupBy le key1 rows = groupBy le key2 rows := by
  unfold groupBy
  rw [List.filterMap_congr h]
  apply List.map_congr_left
  intro k hk
  have : rows.filter (fun r => decide (key1 r = some k)) =
      rows.filter (fun r => decide (key2 r = some k)) :=
    List.filter_congr (fun r hr => by rw [h r hr])
  rw [this]

/-! ## The shared-frame mutations only touch the derived bucket columns -/

theorem preservesData_id : preservesData id := by
  intro r
  exact ⟨rfl, rfl, rfl, rfl, rfl, rfl, rfl, rfl, rfl, rfl, rfl, rfl, rfl, rfl⟩

theorem preservesData_withDistBucket : preservesData withDistBucket := by
  intro r
  exact ⟨rfl, rfl, rfl, rfl, rfl, rfl, rfl, rfl, rfl, rfl, rfl, rfl, rfl, rfl⟩

theorem preservesData_withFieldZone : preservesData withFieldZone := by
  intro r
  exact ⟨rfl, rfl, rfl, rfl, rfl, rfl, rfl, rfl, rfl, rfl, rfl, rfl, rfl, rfl⟩

theorem preservesData_comp {g2 g1 : Row → Row} (h2 : preservesData g2)
    (h1 : preservesData g1) : preservesData (g2 ∘ g1) := by
  intro r
  obtain ⟨a1, a2, a3, a4, a5, a6, a7, a8, a9, a10, a11, a12, a13, a14⟩ := h2 (g1 r)
  obtain ⟨b1, b2, b3, b4, b5, b6, b7, b8, b9, b10, b11, b12, b13, b14⟩ := h1 r
  exact ⟨a1.trans b1, a2.trans b2, a3.trans b3, a4.trans b4, a5.trans b5, a6.trans b6,
    a7.trans b7, a8.trans b8, a9.trans b9, a10.trans b10, a11.trans b11, a12.trans b12,
    a13.trans b13, a14.trans b14⟩

theorem stripDerived_of_preserves {g : Row → Row} (hg : preservesData g) (r : Row) :
    Row.stripDerived (g r) = Row.stripDerived r := by
  obtain ⟨h1, h2, h3, h4, h5, h6, h7, h8, h9, h10, h11, h12, h13, h14⟩ := hg r
  simp [Row.stripDerived, Row.mk.injEq, h1, h2, h3, h4, h5, h6, h7, h8, h9, h10,
    h11, h12, h13, h14]

theorem strip_has_touchdown {s s' : Schema} (h : s.stripDerived = s'.stripDerived) :
    s.has_touchdown = s'.has_touchdown := by
  have h2 := congrArg Schema.has_touchdown h
  simpa [Schema.stripDerived] using h2

theorem strip_has_receiver {s s' : Schema} (h : s.stripDerived = s'.stripDerived) :
    s.has_receiver_player_id = s'.has_receiver_player_id := by
  have h2 := congrArg Schema.has_receiver_player_id h
  simpa [Schema.stripDerived] using h2

theorem strip_has_complete_pass {s s' : Schema} (h : s.stripDerived = s'.stripDerived) :
    s.has_complete_pass = s'.has_complete_pass := by
  have h2 := congrArg Schema.has_complete_pass h
  simpa [Schema.stripDerived] using h2

theorem strip_has_rusher {s s' : Schema} (h : s.stripDerived = s'.stripDerived) :
    s.has_rusher_player_id = s'.has_rusher_player_id := by
  have h2 := congrArg Schema.has_rusher_player_id h
  simpa [Schema.stripDerived] using h2

/-! ## Generic congruence for the filter-group-aggregate pipeline shape -/

theorem filter_groupBy_map_congr {α β κ : Type} [DecidableEq κ] (le : κ → κ → Bool)
    (p : α → Bool) (key : α → Option κ) (agg : κ × List α → β)
    (g1 g2 : α → α) (rows : List α)
    (hp : ∀ r, p (g1 r) = p (g2 r))
    (hkey : ∀ r, key (g1 r) = key (g2 r))
    (hagg : ∀ (k : κ) (gr : List α), agg (k, gr.map g1) = agg (k, gr.map g2)) :
    (groupBy le key ((rows.map g1).filter p)).map agg =
      (groupBy le key ((rows.map g2).filter p)).map agg := by
  rw [List.filter_map, List.filter_map, groupBy_map, groupBy_map, List.map_map, List.map_map]
  have hfl : rows.filter (p ∘ g1) = rows.filter (p ∘ g2) :=
    List.filter_congr (fun r _ => hp r)
  rw [hfl]
  rw [groupBy_congr le (fun r _ => hkey r)]
  apply List.map_congr_left
  intro kg _
  simp only [Function.comp]
  exact hagg kg.1 kg.2

theorem filter_map_comm {α : Type} (g w : α → α) (p : α → Bool) (rows : List α)
    (hw : ∀ r, p (w r) = p r) :
    ((rows.map g).filter p).map w = (rows.map (w ∘ g)).filter p := by
  rw [List.filter_map, List.map_map, List.filter_map]
  congr 1
  exact List.filter_congr (fun r _ => (hw (g r)).symm)

/-! ## Each calculator result only depends on the data columns and schema -/

theorem calculate_league_rates_congr (f : Row → Row) (hf : preservesData f)
    (s s' : Schema) (rows : List Row) :
    (calculate_league_rates { schema := s, rows := rows.map f }).1 =
      (calculate_league_rates { schema := s', rows := rows }).1 := by
  simp only [calculate_league_rates, addDistBucketCol]
  rw [List.map_map]
  apply congrArg (List.filter _)
  apply filter_groupBy_map_congr leagueKeyLE _ leagueKey _ (withDistBucket ∘ f) withDistBucket rows
  · intro r
    obtain ⟨h1, -⟩ := hf r
    simp [Function.comp, withDistBucket, h1]
  · intro r
    obtain ⟨h1, h2, h3, -⟩ := hf r
    simp [Function.comp, withDistBucket, leagueKey, h1, h2, h3]
  · intro k gr
    have hm : (gr.map (withDistBucket ∘ f)).map (fun r => r.first_down_converted) =
        (gr.map withDistBucket).map (fun r => r.first_down_converted) := by
      rw [List.map_map, List.map_map]
      apply List.map_congr_left
      intro r _
      obtain ⟨-, -, -, -, -, -, -, h8, -⟩ := hf r
      simp [Function.comp, withDistBucket, h8]
    simp [mkLeagueRate, hm]

theorem calculate_team_rates_congr (f : Row → Row) (hf : preservesData f)
    (s s' : Schema) (rows : List Row) :
    (calculate_team_rates { schema := s, rows := rows.map f }).1 =
      (calculate_team_rates { schema := s', rows := rows }).1 := by
  simp only [calculate_team_rates, addDistBucketCol]
  rw [List.map_map]
  apply congrArg (List.filter _)
  apply filter_groupBy_map_congr teamKeyLE _ teamKey _ (withDistBucket ∘ f) withDistBucket rows
  · intro r
    obtain ⟨h1, -⟩ := hf r
    simp [Function.comp, withDistBucket, h1]
  · intro r
    obtain ⟨h1, h2, h3, h4, -⟩ := hf r
    simp [Function.comp, withDistBucket, teamKey, h2, h3, h4]
  · intro k gr
    have hm : (gr.map (withDistBucket ∘ f)).map (fun r => r.first_down_converted) =
        (gr.map withDistBucket).map (fun r => r.first_down_converted) := by
      rw [List.map_map, List.map_map]
      apply List.map_congr_left
      intro r _
      obtain ⟨-, -, -, -, -, -, -, h8, -⟩ := hf r
      simp [Function.comp, withDistBucket, h8]
    simp [mkTeamRate, hm]

theorem filter_groupBy_congr_of_map {α β κ : Type} [DecidableEq κ] (le : κ → κ → Bool)
    (p : α → Bool) (key : α → Option κ) (agg : κ × List α → β) (g1 : α → α) (rows : List α)
    (hp : ∀ r, p (g1 r) = p r)
    (hkey : ∀ r, key (g1 r) = key r)
    (hagg : ∀ (k : κ) (gr : List α), agg (k, gr.map g1) = agg (k, gr)) :
    (groupBy le key ((rows.map g1).filter p)).map agg =
      (groupBy le key (rows.filter p)).map agg := by
  rw [List.filter_map, groupBy_map, List.map_map]
  have hfl : rows.filter (p ∘ g1) = rows.filter p :=
    List.filter_congr (fun r _ => hp r)
  rw [hfl]
  rw [groupBy_congr le (fun r _ => hkey r)]
  apply List.map_congr_left
  intro kg _
  simp only [Function.comp]
  exact hagg kg.1 kg.2

theorem filter_then_map_comm {α : Type} (w : α → α) (p : α → Bool) (rows : List α)
    (hw : ∀ r, p (w r) = p r) :
    (rows.filter p).map w = (rows.map w).filter p := by
  rw [List.filter_map]
  congr 1
  exact List.filter_congr (fun r _ => (hw r).symm)

theorem calculate_field_position_impact_congr (f : Row → Row) (hf : preservesData f)
    (s s' : Schema) (rows : List Row) (hs : s.has_touchdown = s'.has_touchdown) :
    (calculate_field_position_impact { schema := s, rows := rows.map f }).1 =
      (calculate_field_position_impact { schema := s', rows := rows }).1 := by
  have hmean : ∀ gr : List Row,
      (gr.map (withFieldZone ∘ f)).map (fun r => r.first_down_converted) =
        (gr.map withFieldZone).map (fun r => r.first_down_converted) := by
    intro gr
    rw [List.map_map, List.map_map]
    apply List.map_congr_left
    intro r _
    obtain ⟨-, -, -, -, -, -, -, h8, -⟩ := hf r
    simp [Function.comp, withFieldZone, h8]
  have htd : ∀ gr : List Row,
      (gr.map (withFieldZone ∘ f)).map (fun r => r.touchdown) =
        (gr.map withFieldZone).map (fun r => r.touchdown) := by
    intro gr
    rw [List.map_map, List.map_map]
    apply List.map_congr_left
    intro r _
    obtain ⟨-, -, -, -, -, -, h7, -⟩ := hf r
    simp [Function.comp, withFieldZone, h7]
  simp only [calculate_field_position_impact, fieldRows, addFieldZoneCol]
  rw [List.map_map]
  simp only [hs]
  by_cases hTD : s'.has_touchdown = true
  · simp only [hTD, if_true]
    apply filter_groupBy_map_congr fieldKeyLE _ fieldKey _ (withFieldZone ∘ f) withFieldZone rows
    · intro r
      obtain ⟨h1, -⟩ := hf r
      simp [Function.comp, withFieldZone, h1]
    · intro r
      obtain ⟨-, -, h3, -, h5, -⟩ := hf r
      simp [Function.comp, withFieldZone, fieldKey, h3, h5]
    · intro k gr
      simp [mkFieldRate, hmean gr, htd gr]
  · simp only [hTD, if_false]
    have hcomm : ∀ g : Row → Row,
        ((rows.map g).filter (fun r => decide (r.down = some 3))).map withZeroTouchdown =
          (rows.map (withZeroTouchdown ∘ g)).filter (fun r => decide (r.down = some 3)) :=
      fun g => filter_map_comm g withZeroTouchdown _ rows (fun r => rfl)
    rw [hcomm (withFieldZone ∘ f), hcomm withFieldZone]
    apply filter_groupBy_map_congr fieldKeyLE _ fieldKey _
      (withZeroTouchdown ∘ (withFieldZone ∘ f)) (withZeroTouchdown ∘ withFieldZone) rows
    · intro r
      obtain ⟨h1, -⟩ := hf r
      simp [Function.comp, withFieldZone, withZeroTouchdown, h1]
    · intro r
      obtain ⟨-, -, h3, -, h5, -⟩ := hf r
      simp [Function.comp, withFieldZone, withZeroTouchdown, fieldKey, h3, h5]
    · intro k gr
      have hm2 : (gr.map (withZeroTouchdown ∘ (withFieldZone ∘ f))).map
            (fun r => r.first_down_converted) =
          (gr.map (withZeroTouchdown ∘ withFieldZone)).map (fun r => r.first_down_converted) := by
        rw [List.map_map, List.map_map]
        apply List.map_congr_left
        intro r _
        obtain ⟨-, -, -, -, -, -, -, h8, -⟩ := hf r
        simp [Function.comp, withFieldZone, withZeroTouchdown, h8]
      have ht2 : (gr.map (withZeroTouchdown ∘ (withFieldZone ∘ f))).map (fun r => r.touchdown) =
          (gr.map (withZeroTouchdown ∘ withFieldZone)).map (fun r => r.touchdown) := by
        rw [List.map_map, List.map_map]
        apply List.map_congr_left
        intro r _
        simp [Function.comp, withFieldZone, withZeroTouchdown]
      simp [mkFieldRate, hm2, ht2]

theorem receiverStatsFiltered_congr (f : Row → Row) (hf : preservesData f)
    (s s' : Schema) (rows : List Row) (hcp : s.has_complete_pass = s'.has_complete_pass) :
    receiverStatsFiltered { schema := s, rows := rows.map f } =
      receiverStatsFiltered { schema := s', rows := rows } := by
  unfold receiverStatsFiltered receiverRows thirdDownPasses
  simp only [hcp]
  apply congrArg (List.filter _)
  apply congrArg (List.filter _)
  by_cases hc : s'.has_complete_pass = true
  · simp only [hc, if_true]
    apply filter_groupBy_congr_of_map strLE _ _ mkReceiverStat f rows
    · intro r
      obtain ⟨h1, -, h3, -⟩ := hf r
      simp [h1, h3]
    · intro r
      obtain ⟨-, -, -, -, -, -, -, -, -, -, h11, -⟩ := hf r
      exact h11
    · intro k gr
      have hn : (gr.map f).filterMap (fun r => r.receiver_player_name) =
          gr.filterMap (fun r => r.receiver_player_name) := by
        rw [List.filterMap_map]
        exact List.filterMap_congr (fun r _ => by
          obtain ⟨-, -, -, -, -, -, -, -, -, -, -, h12, -⟩ := hf r
          simp [Function.comp, h12])
      have hcpm : (gr.map f).map (fun r => r.complete_pass) =
          gr.map (fun r => r.complete_pass) := by
        rw [List.map_map]
        exact List.map_congr_left (fun r _ => by
          obtain ⟨-, -, -, -, -, -, -, -, h9, -⟩ := hf r
          simp [Function.comp, h9])
      have hfdc : (gr.map f).map (fun r => r.first_down_converted) =
          gr.map (fun r => r.first_down_converted) := by
        rw [List.map_map]
        exact List.map_congr_left (fun r _ => by
          obtain ⟨-, -, -, -, -, -, -, h8, -⟩ := hf r
          simp [Function.comp, h8])
      simp [mkReceiverStat, hn, hcpm, hfdc]
  · simp only [hc, if_false]
    have hcomm1 : ((rows.map f).filter
          (fun r => decide (r.down = some 3) && decide (r.play_type = some "pass"))).map
            withDerivedCompletePass =
        (rows.map (withDerivedCompletePass ∘ f)).filter
          (fun r => decide (r.down = some 3) && decide (r.play_type = some "pass")) :=
      filter_map_comm f withDerivedCompletePass _ rows (fun r => rfl)
    have hcomm2 : (rows.filter
          (fun r => decide (r.down = some 3) && decide (r.play_type = some "pass"))).map
            withDerivedCompletePass =
        (rows.map withDerivedCompletePass).filter
          (fun r => decide (r.down = some 3) && decide (r.play_type = some "pass")) :=
      filter_then_map_comm withDerivedCompletePass _ rows (fun r => rfl)
    rw [hcomm1, hcomm2]
    apply filter_groupBy_map_congr strLE _ _ mkReceiverStat
      (withDerivedCompletePass ∘ f) withDerivedCompletePass rows
    · intro r
      obtain ⟨h1, -, h3, -⟩ := hf r
      simp [Function.comp, withDerivedCompletePass, h1, h3]
    · intro r
      obtain ⟨-, -, -, -, -, -, -, -, -, -, h11, -⟩ := hf r
      simp [Function.comp, withDerivedCompletePass, h11]
    · intro k gr
      have hn : (gr.map (withDerivedCompletePass ∘ f)).filterMap
            (fun r => r.receiver_player_name) =
          (gr.map withDerivedCompletePass).filterMap (fun r => r.receiver_player_name) := by
        rw [List.filterMap_map, List.filterMap_map]
        exact List.filterMap_congr (fun r _ => by
          obtain ⟨-, -, -, -, -, -, -, -, -, -, -, h12, -⟩ := hf r
          simp [Function.comp, withDerivedCompletePass, h12])
      have hcpm : (gr.map (withDerivedCompletePass ∘ f)).map (fun r => r.complete_pass) =
          (gr.map withDerivedCompletePass).map (fun r => r.complete_pass) := by
        rw [List.map_map, List.map_map]
        exact List.map_congr_left (fun r _ => by
          obtain ⟨-, -, -, -, -, -, -, -, -, h10, -⟩ := hf r
          simp [Function.comp, withDerivedCompletePass, h10])
      have hfdc : (gr.map (withDerivedCompletePass ∘ f)).map (fun r => r.first_down_converted) =
          (gr.map withDerivedCompletePass).map (fun r => r.first_down_converted) := by
        rw [List.map_map, List.map_map]
        exact List.map_congr_left (fun r _ => by
          obtain ⟨-, -, -, -, -, -, -, h8, -⟩ := hf r
          simp [Function.comp, withDerivedCompletePass, h8])
      simp [mkReceiverStat, hn, hcpm, hfdc]

theorem rusherStatsFiltered_congr (f : Row → Row) (hf : preservesData f)
    (s s' : Schema) (rows : List Row) :
    rusherStatsFiltered { schema := s, rows := rows.map f } =
      rusherStatsFiltered { schema := s', rows := rows } := by
  unfold rusherStatsFiltered thirdDownRuns
  apply congrArg (List.filter _)
  apply congrArg (List.filter _)
  apply filter_groupBy_congr_of_map strLE _ _ mkRusherStat f rows
  · intro r
    obtain ⟨h1, -, h3, -⟩ := hf r
    simp [h1, h3]
  · intro r
    obtain ⟨-, -, -, -, -, -, -, -, -, -, -, -, h13, -⟩ := hf r
    exact h13
  · intro k gr
    have hn : (gr.map f).filterMap (fun r => r.rusher_player_name) =
        gr.filterMap (fun r => r.rusher_player_name) := by
      rw [List.filterMap_map]
      exact List.filterMap_congr (fun r _ => by
        obtain ⟨-, -, -, -, -, -, -, -, -, -, -, -, -, h14⟩ := hf r
        simp [Function.comp, h14])
    have hfdc : (gr.map f).map (fun r => r.first_down_converted) =
        gr.map (fun r => r.first_down_converted) := by
      rw [List.map_map]
      exact List.map_congr_left (fun r _ => by
        obtain ⟨-, -, -, -, -, -, -, h8, -⟩ := hf r
        simp [Function.comp, h8])
    simp [mkRusherStat, hn, hfdc]

theorem calculate_player_rates_congr (f : Row → Row) (hf : preservesData f)
    (s s' : Schema) (rows : List Row)
    (hrec : s.has_receiver_player_id = s'.has_receiver_player_id)
    (hcp : s.has_complete_pass = s'.has_complete_pass)
    (hrush : s.has_rusher_player_id = s'.has_rusher_player_id) :
    (calculate_player_rates { schema := s, rows := rows.map f }).1 =
      (calculate_player_rates { schema := s', rows := rows }).1 := by
  have hrecd : receiverData { schema := s, rows := rows.map f } =
      receiverData { schema := s', rows := rows } := by
    unfold receiverData receiverStatsSorted
    rw [receiverStatsFiltered_congr f hf s s' rows hcp]
  have hrushd : rusherData { schema := s, rows := rows.map f } =
      rusherData { schema := s', rows := rows } := by
    unfold rusherData rusherStatsSorted
    simp only [hrush]
    rw [rusherStatsFiltered_congr f hf s s' rows]
  unfold calculate_player_rates
  simp only [hrec]
  by_cases hr : s'.has_receiver_player_id = false
  · simp [hr]
  · simp only [hr, if_false]
    simp [hrecd, hrushd]

theorem runCalc_table (c : CalcId) (t : Table) :
    ∃ g : Row → Row, preservesData g ∧ (runCalc c t).2.rows = t.rows.map g ∧
      (runCalc c t).2.schema.stripDerived = t.schema.stripDerived := by
  cases c with
  | league =>
    exact ⟨withDistBucket, preservesData_withDistBucket, rfl, rfl⟩
  | team =>
    exact ⟨withDistBucket, preservesData_withDistBucket, rfl, rfl⟩
  | fieldpos =>
    exact ⟨withFieldZone, preservesData_withFieldZone, rfl, rfl⟩
  | player =>
    have ht : (runCalc CalcId.player t).2 = t := by
      show (calculate_player_rates t).2.2 = t
      unfold calculate_player_rates
      split <;> rfl
    rw [ht]
    exact ⟨id, preservesData_id, (List.map_id _).symm, rfl⟩

theorem runCalc_congr (c : CalcId) (g : Row → Row) (hg : preservesData g)
    (s s' : Schema) (rows : List Row) (hs : s.stripDerived = s'.stripDerived) :
    (runCalc c { schema := s, rows := rows.map g }).1 =
      (runCalc c { schema := s', rows := rows }).1 := by
  cases c with
  | league =>
    show AnyResult.league _ = AnyResult.league _
    rw [calculate_league_rates_congr g hg s s' rows]
  | team =>
    show AnyResult.team _ = AnyResult.team _
    rw [calculate_team_rates_congr g hg s s' rows]
  | fieldpos =>
    show AnyResult.fieldpos _ = AnyResult.fieldpos _
    rw [calculate_field_position_impact_congr g hg s s' rows (strip_has_touchdown hs)]
  | player =>
    show AnyResult.player _ = AnyResult.player _
    rw [calculate_player_rates_congr g hg s s' rows (strip_has_receiver hs)
      (strip_has_complete_pass hs) (strip_has_rusher hs)]

theorem runOrder_shape (order : List CalcId) (t : Table) :
    ∃ g : Row → Row, preservesData g ∧ (runOrder order t).2.rows = t.rows.map g ∧
      (runOrder order t).2.schema.stripDerived = t.schema.stripDerived := by
  induction order generalizing t with
  | nil => exact ⟨id, preservesData_id, (List.map_id _).symm, rfl⟩
  | cons c cs ih =>
    obtain ⟨g1, hg1, hrows1, hs1⟩ := runCalc_table c t
    obtain ⟨g2, hg2, hrows2, hs2⟩ := ih (runCalc c t).2
    have h2 : (runOrder (c :: cs) t).2 = (runOrder cs (runCalc c t).2).2 := rfl
    refine ⟨g2 ∘ g1, preservesData_comp hg2 hg1, ?_, ?_⟩
    · rw [h2, hrows2, hrows1, List.map_map]
    · rw [h2, hs2, hs1]

theorem runOrder_results (order : List CalcId) (t : Table) :
    ∀ cr ∈ (runOrder order t).1, cr.2 = (runCalc cr.1 t).1 := by
  induction order generalizing t with
  | nil =>
    intro cr h
    simp [runOrder] at h
  | cons c cs ih =>
    intro cr hcr
    have hshape : (runOrder (c :: cs) t).1 =
        (c, (runCalc c t).1) :: (runOrder cs (runCalc c t).2).1 := rfl
    rw [hshape] at hcr
    rcases List.mem_cons.mp hcr with h | h
    · rw [h]
    · have hres := ih (runCalc c t).2 cr h
      obtain ⟨g, hg, hrows, hs⟩ := runCalc_table c t
      have heta : (runCalc c t).2 =
          { schema := (runCalc c t).2.schema, rows := (runCalc c t).2.rows } := rfl
      rw [heta, hrows] at hres
      have heta2 : t = { schema := t.schema, rows := t.rows } := rfl
      rw [hres, heta2]
      exact runCalc_congr cr.1 g hg _ _ t.rows hs

/-! ## Claim C1 -/

/-- C1 counterexample: the shared frame is NOT unchanged.  Running the
league calculator on a table whose schema lacks the distance-bucket column
stores that column into the shared frame, so the returned frame differs
from the input frame. -/
theorem c1_table_mutated_counterexample :
    (calculate_league_rates exC1).2 ≠ exC1 ∧
    ((calculate_league_rates exC1).2).schema.has_dist_bucket = true ∧
    exC1.schema.has_dist_bucket = false := by
  decide

/-- C1 (amended): the calculators do mutate the shared frame, but only by
storing the derived `dist_bucket` and `field_zone` columns; every data
column, the schema apart from the two derived-column flags, and the row
count are unchanged, and for any execution order each calculator returns
exactly the result it returns on the pristine frame, so the four result
sets are identical regardless of the order in which the calculators are
executed. -/
theorem c1_calculators_commute (t : Table) (order : List CalcId) :
    (∀ cr ∈ (runOrder order t).1, cr.2 = (runCalc cr.1 t).1) ∧
    (runOrder order t).2.rows.map Row.stripDerived = t.rows.map Row.stripDerived ∧
    (runOrder order t).2.schema.stripDerived = t.schema.stripDerived ∧
    (runOrder order t).2.rows.length = t.rows.length := by
  obtain ⟨g, hg, hrows, hsch⟩ := runOrder_shape order t
  refine ⟨runOrder_results order t, ?_, hsch, ?_⟩
  · rw [hrows, List.map_map]
    exact List.map_congr_left (fun r _ => stripDerived_of_preserves hg r)
  · rw [hrows, List.length_map]

/-- Witness for C1: on a concrete frame and a concrete order, the league
result recorded by the threaded run is the pristine-frame league result. -/
theorem c1_calculators_commute_witness :
    (CalcId.league, AnyResult.league ([] : List LeagueRate)).2 =
      (runCalc CalcId.league exC1).1 :=
  (c1_calculators_commute exC1 [CalcId.fieldpos, CalcId.league]).1
    (CalcId.league, AnyResult.league []) (by decide)

/-! ## Claim C2 -/

/-- C2 counterexample: with the receiver-identity column absent but the
rusher-identity column present and ten qualifying carries in the data, the
player calculator returns an empty result even though the rusher
sub-pipeline would produce a record, so the two sub-pipelines are not
independent and the player result does not equal the rusher result list. -/
theorem c2_rusher_skipped_counterexample :
    exC2.schema.has_receiver_player_id = false ∧
    exC2.schema.has_rusher_player_id = true ∧
    (calculate_player_rates exC2).1 = [] ∧
    rusherData exC2 =
      [{ player_id := "R1", player_name := some "Ron", position := "RB",
         conversion_rate := some 1 }] := by
  refine ⟨rfl, rfl, rfl, ?_⟩
  simp [rusherData, rusherStatsSorted, rusherStatsFiltered, thirdDownRuns, exC2,
    fullSchema, wRunRow, blankRow, groupBy, mkRusherStat, meanOpt, sortDescBy,
    strLE, lexLE]

/-- C2 (amended): when the receiver-identity column is absent from the
schema the player calculator emits the diagnostic and returns an empty
result for the whole player result set, skipping the rusher sub-pipeline
even when the rusher-identity column exists; when the receiver-identity
column is present, the player result is the receiver list followed by the
rusher list, and the rusher list is empty whenever the rusher-identity
column is absent. -/
theorem c2_receiver_column_controls_player_result (t : Table) :
    (t.schema.has_receiver_player_id = false →
      (calculate_player_rates t).1 = [] ∧
        (calculate_player_rates t).2.1 = [receiverMissingWarning]) ∧
    (t.schema.has_receiver_player_id = true →
      (calculate_player_rates t).1 = receiverData t ++ rusherData t ∧
        (calculate_player_rates t).2.1 = []) ∧
    (t.schema.has_rusher_player_id = false → rusherData t = []) := by
  refine ⟨?_, ?_, ?_⟩
  · intro h
    simp [calculate_player_rates, h]
  · intro h
    simp [calculate_player_rates, h]
  · intro h
    simp [rusherData, h]

/-- Witness for C2: the amended behaviour at a concrete table with no
receiver-identity column. -/
theorem c2_receiver_column_controls_player_result_witness :
    (calculate_player_rates exC2).1 = [] ∧
      (calculate_player_rates exC2).2.1 = [receiverMissingWarning] :=
  (c2_receiver_column_controls_player_result exC2).1 rfl

/-! ## Claim C4 -/

/-- C4: `distance_bucket` and `field_zone` are total deterministic Lean
functions (hence never raise); every output lies in the stated
four-element enumeration, an undefined input yields the stated default,
and the bucket boundaries are exactly as claimed. -/
theorem c4_bucketizers_total_and_exact :
    (∀ d : Option Int, distance_bucket d = "short" ∨ distance_bucket d = "medium" ∨
      distance_bucket d = "long" ∨ distance_bucket d = "very_long") ∧
    distance_bucket none = "medium" ∧
    distance_bucket (some 3) = "short" ∧ distance_bucket (some 4) = "medium" ∧
    distance_bucket (some 6) = "medium" ∧ distance_bucket (some 7) = "long" ∧
    distance_bucket (some 10) = "long" ∧ distance_bucket (some 11) = "very_long" ∧
    (∀ y : Option Int, field_zone y = "red_zone" ∨ field_zone y = "green_zone" ∨
      field_zone y = "mid_field" ∨ field_zone y = "own_territory") ∧
    field_zone none = "mid_field" ∧
    field_zone (some 10) = "red_zone" ∧ field_zone (some 11) = "green_zone" ∧
    field_zone (some 20) = "green_zone" ∧ field_zone (some 21) = "mid_field" ∧
    field_zone (some 50) = "mid_field" ∧ field_zone (some 51) = "own_territory" := by
  refine ⟨?_, rfl, rfl, rfl, rfl, rfl, rfl, rfl, ?_, rfl, rfl, rfl, rfl, rfl, rfl, rfl⟩
  · intro d
    rcases d with - | y
    · exact Or.inr (Or.inl rfl)
    · simp only [distance_bucket]
      split_ifs <;> simp
  · intro y
    rcases y with - | v
    · exact Or.inr (Or.inr (Or.inl rfl))
    · simp only [field_zone]
      split_ifs <;> simp

/-! ## Claim C5 -/

theorem fieldKey_withFieldZone (r : Row) :
    fieldKey (withFieldZone r) =
      r.play_type.map (fun p => (field_zone r.yardline_100, p)) := by
  cases hpt : r.play_type with
  | none => simp [fieldKey, withFieldZone, hpt]
  | some p => simp [fieldKey, withFieldZone, hpt]

theorem mem_fieldThird_key (t : Table) (z p : String) :
    (∃ r2 ∈ (t.rows.map withFieldZone).filter (fun r => decide (r.down = some 3)),
        fieldKey r2 = some (z, p)) ↔
      ∃ r ∈ t.rows, r.down = some 3 ∧ r.play_type = some p ∧
        field_zone r.yardline_100 = z := by
  constructor
  · rintro ⟨r2, hr2, hk⟩
    rcases List.mem_filter.mp hr2 with ⟨hmem, hdec⟩
    rcases List.mem_map.mp hmem with ⟨r, hr, rfl⟩
    have hdown : r.down = some 3 := by simpa [withFieldZone] using hdec
    rw [fieldKey_withFieldZone] at hk
    cases hpt : r.play_type with
    | none => rw [hpt] at hk; simp at hk
    | some q =>
      rw [hpt] at hk
      simp only [Option.map_some'] at hk
      have h1 : field_zone r.yardline_100 = z := congrArg Prod.fst (Option.some.inj hk)
      have h2 : q = p := congrArg Prod.snd (Option.some.inj hk)
      exact ⟨r, hr, hdown, h2 ▸ hpt, h1⟩
  · rintro ⟨r, hr, hd, hp, hz⟩
    refine ⟨withFieldZone r, ?_, ?_⟩
    · exact List.mem_filter.mpr ⟨List.mem_map_of_mem _ hr, by simp [withFieldZone, hd]⟩
    · rw [fieldKey_withFieldZone, hp]
      simp [hz]

/-- Every distinct (field_zone, play_type) group over the third-down subset
produces a field-position record, and every field-position record comes
from such a group: the field-position calculator applies no minimum-sample
filter. -/
theorem field_record_exists_iff (t : Table) (z p : String) :
    (∃ rec ∈ (calculate_field_position_impact t).1, rec.zone = z ∧ rec.play_type = p) ↔
      ∃ r ∈ t.rows, r.down = some 3 ∧ r.play_type = some p ∧
        field_zone r.yardline_100 = z := by
  have hres : (calculate_field_position_impact t).1 =
      (groupBy fieldKeyLE fieldKey (fieldRows (addFieldZoneCol t))).map mkFieldRate := rfl
  rw [hres]
  have h1 : (∃ rec ∈ (groupBy fieldKeyLE fieldKey
        (fieldRows (addFieldZoneCol t))).map mkFieldRate,
      rec.zone = z ∧ rec.play_type = p) ↔
      ∃ r2 ∈ fieldRows (addFieldZoneCol t), fieldKey r2 = some (z, p) := by
    constructor
    · rintro ⟨rec, hrec, hz, hp⟩
      rcases List.mem_map.mp hrec with ⟨kg, hkg, rfl⟩
      rcases (mem_groupBy_iff fieldKeyLE fieldKey _ kg.1 kg.2).mp hkg with ⟨⟨r, hr, hkr⟩, -⟩
      have hz2 : kg.1.1 = z := hz
      have hp2 : kg.1.2 = p := hp
      refine ⟨r, hr, ?_⟩
      rw [hkr, ← hz2, ← hp2]
    · rintro ⟨r, hr, hkr⟩
      refine ⟨mkFieldRate ((z, p), (fieldRows (addFieldZoneCol t)).filter
        (fun r2 => decide (fieldKey r2 = some (z, p)))), ?_, rfl, rfl⟩
      exact List.mem_map_of_mem _
        ((mem_groupBy_iff fieldKeyLE fieldKey _ (z, p) _).mpr ⟨⟨r, hr, hkr⟩, rfl⟩)
  rw [h1]
  have hrows : (addFieldZoneCol t).rows = t.rows.map withFieldZone := rfl
  unfold fieldRows
  rw [hrows]
  by_cases htd : (addFieldZoneCol t).schema.has_touchdown = true
  · simp only [htd, if_true]
    exact mem_fieldThird_key t z p
  · simp only [htd, if_false]
    rw [← mem_fieldThird_key t z p]
    constructor
    · rintro ⟨r2, hr2, hk⟩
      rcases List.mem_map.mp hr2 with ⟨r3, hr3, rfl⟩
      exact ⟨r3, hr3, hk⟩
    · rintro ⟨r3, hr3, hk⟩
      exact ⟨withZeroTouchdown r3, List.mem_map_of_mem _ hr3, hk⟩

/-- C5: league records always carry a sample of at least ten, team records
at least five, and the field-position calculator applies no minimum-sample
filter: a record exists for every distinct (field_zone, play_type) group
over the third-down subset, and on a concrete one-play table the single
field-position record has sample_size one. -/
theorem c5_minimum_sample_rules (t : Table) :
    (∀ rec ∈ (calculate_league_rates t).1, 10 ≤ rec.sample_size) ∧
    (∀ rec ∈ (calculate_team_rates t).1, 5 ≤ rec.sample_size) ∧
    (∀ z p : String,
      (∃ rec ∈ (calculate_field_position_impact t).1, rec.zone = z ∧ rec.play_type = p) ↔
        ∃ r ∈ t.rows, r.down = some 3 ∧ r.play_type = some p ∧
          field_zone r.yardline_100 = z) ∧
    ((calculate_field_position_impact exSmall).1).map (fun rec => rec.sample_size) = [1] := by
  refine ⟨?_, ?_, fun z p => field_record_exists_iff t z p, ?_⟩
  · intro rec hrec
    have h2 : rec ∈ ((groupBy leagueKeyLE leagueKey ((addDistBucketCol t).rows.filter
        (fun r => decide (r.down = some 3) || decide (r.down = some 4)))).map
          mkLeagueRate).filter (fun r => decide (10 ≤ r.sample_size)) := hrec
    simpa using (List.mem_filter.mp h2).2
  · intro rec hrec
    have h2 : rec ∈ ((groupBy teamKeyLE teamKey ((addDistBucketCol t).rows.filter
        (fun r => decide (r.down = some 3)))).map
          mkTeamRate).filter (fun r => decide (5 ≤ r.sample_size)) := hrec
    simpa using (List.mem_filter.mp h2).2
  · simp [calculate_field_position_impact, fieldRows, addFieldZoneCol, exSmall, fullSchema,
      wPassRow, blankRow, withFieldZone, field_zone, groupBy, fieldKey, mkFieldRate,
      strLE, lexLE]

/-- Witness for C5: a concrete league record produced from twenty plays
satisfies the minimum-sample bound. -/
theorem c5_minimum_sample_rules_witness :
    10 ≤ ({ down := 3, distance := "short", play_type := "pass",
            success_rate := some (3/4), sample_size := 20 } : LeagueRate).sample_size :=
  (c5_minimum_sample_rules scenA).1 _ (by
    simp [calculate_league_rates, addDistBucketCol, scenA, fullSchema, wPassRow, blankRow,
      withDistBucket, distance_bucket, groupBy, leagueKey, leagueKeyLE, mkLeagueRate, meanOpt,
      strLE, strLT, lexLE]
    norm_num)

/-! ## Claim C6 -/

theorem meanOpt_all_zero {l : List (Option Int)} (hne : l ≠ [])
    (hall : ∀ x ∈ l, x = some 0) : meanOpt l = some 0 := by
  have hmem : ∀ x ∈ l.filterMap id, x = (0 : Int) := by
    intro x hx
    rcases List.mem_filterMap.mp hx with ⟨a, ha, hax⟩
    rw [hall a ha] at hax
    exact (Option.some.inj hax).symm
  have hsum : (l.filterMap id).sum = 0 := List.sum_eq_zero hmem
  have hlen : (l.filterMap id).length ≠ 0 := by
    rcases List.exists_mem_of_ne_nil l hne with ⟨a, ha⟩
    have hz : (0 : Int) ∈ l.filterMap id :=
      List.mem_filterMap.mpr ⟨a, ha, by rw [hall a ha]; rfl⟩
    intro h0
    rw [List.length_eq_zero] at h0
    simp [h0] at hz
  simp only [meanOpt]
  rw [if_neg hlen, hsum]
  simp

/-- Without a touchdown column, every record the field-position calculator
emits has a touchdown rate of zero. -/
theorem td_rate_zero_of_no_touchdown (t : Table) (h : t.schema.has_touchdown = false) :
    ∀ rec ∈ (calculate_field_position_impact t).1, rec.td_rate = some 0 := by
  intro rec hrec
  have h2 : rec ∈ (groupBy fieldKeyLE fieldKey (fieldRows (addFieldZoneCol t))).map
      mkFieldRate := hrec
  rcases List.mem_map.mp h2 with ⟨kg, hkg, rfl⟩
  have hne : kg.2 ≠ [] := groupBy_group_ne_nil hkg
  have hall : ∀ r ∈ kg.2, r.touchdown = some 0 := by
    intro r hr
    rcases (mem_groupBy_iff fieldKeyLE fieldKey _ kg.1 kg.2).mp hkg with ⟨-, hg⟩
    rw [hg] at hr
    have hrf : r ∈ fieldRows (addFieldZoneCol t) := (List.mem_filter.mp hr).1
    unfold fieldRows at hrf
    have hsch : (addFieldZoneCol t).schema.has_touchdown = false := h
    rw [hsch] at hrf
    simp only [Bool.false_eq_true, if_false] at hrf
    rcases List.mem_map.mp hrf with ⟨r3, -, rfl⟩
    rfl
  show meanOpt (kg.2.map (fun r => r.touchdown)) = some 0
  apply meanOpt_all_zero
  · simpa using hne
  · intro x hx
    rcases List.mem_map.mp hx with ⟨r, hr, rfl⟩
    exact hall r hr

/-- C6 counterexample: a missing touchdown column IS fatal when the
first-down-converted column is missing as well, because the derivation at
source lines 121-124 accesses the touchdown column; the run then aborts
with a non-zero exit status instead of proceeding. -/
theorem c6_missing_touchdown_fatal_counterexample :
    exC6bad.schema.has_touchdown = false ∧
    runPipeline "ts" (.ok exC6bad) (.ok exC6bad) = .error () := by
  exact ⟨rfl, rfl⟩

/-- C6 (amended): for every source table whose schema has no touchdown
column but does carry a first-down-converted column, the run proceeds
without error and every record of the field_position_impact result has a
td_rate of exactly zero. -/
theorem c6_no_touchdown_column_not_fatal (ts : String) (t : Table)
    (f24 : Except String Table) (htd : t.schema.has_touchdown = false)
    (hfdc : t.schema.has_first_down_converted = true) :
    runPipeline ts (.ok t) f24 ≠ .error () ∧
    ∀ o, runPipeline ts (.ok t) f24 = .ok o →
      ∀ rec ∈ o.field_position_impact, rec.td_rate = some 0 := by
  have hload : load_play_by_play_data (.ok t) f24 = some (filterPlays t, 2025) := by
    unfold load_play_by_play_data
    have hsch : (filterPlays t).schema.has_first_down_converted = true := hfdc
    simp [hsch]
  have hrun : runPipeline ts (.ok t) f24 = .ok
      { generated_at := ts, season := 2025,
        total_plays := (calculate_player_rates
          (calculate_field_position_impact
            (calculate_team_rates
              (calculate_league_rates (filterPlays t)).2).2).2).2.2.rows.length,
        league_conversion_rates := (calculate_league_rates (filterPlays t)).1,
        team_conversion_rates :=
          (calculate_team_rates (calculate_league_rates (filterPlays t)).2).1,
        field_position_impact :=
          (calculate_field_position_impact
            (calculate_team_rates (calculate_league_rates (filterPlays t)).2).2).1,
        player_success_rates :=
          (calculate_player_rates
            (calculate_field_position_impact
              (calculate_team_rates
                (calculate_league_rates (filterPlays t)).2).2).2).1,
        metadata := { description := "NFL probability data for live game simulator",
                      source := "nflverse/nfl_data_py",
                      note := "For entertainment purposes only" } } := by
    unfold runPipeline
    rw [hload]
  constructor
  · rw [hrun]
    intro hcontra
    exact Except.noConfusion hcontra
  · intro o ho rec hrec
    rw [hrun] at ho
    have ho2 := Except.ok.inj ho
    rw [← ho2] at hrec
    have hfield : rec ∈ (calculate_field_position_impact
        (calculate_team_rates (calculate_league_rates (filterPlays t)).2).2).1 := hrec
    apply td_rate_zero_of_no_touchdown _ _ rec hfield
    show t.schema.has_touchdown = false
    exact htd

/-- Witness for C6: on a concrete table with no touchdown column but with
a first-down-converted column, the run does not abort. -/
theorem c6_no_touchdown_column_not_fatal_witness :
    runPipeline "w6" (.ok exC6ok) (.error "e") ≠ Except.error () :=
  (c6_no_touchdown_column_not_fatal "w6" exC6ok (.error "e") rfl rfl).1

/-! ## Claim C7 -/

/-- C7: the loader attempts the most recent season (2025) and falls back
to 2024 on any fetch failure; when both fetches fail the run ends in the
error state (process exit 1) and no output document is produced, the
output write being unreachable on a load failure. -/
theorem load_eq_fallback (e : String) (t : Table) :
    load_play_by_play_data (.error e) (.ok t) =
      (if (filterPlays t).schema.has_first_down_converted = true then
        some (filterPlays t, (2024 : Int))
      else if (filterPlays t).schema.has_first_down && (filterPlays t).schema.has_touchdown then
        some (deriveFdc (filterPlays t), (2024 : Int))
      else none) := rfl

theorem load_eq_primary (t : Table) (f24 : Except String Table) :
    load_play_by_play_data (.ok t) f24 =
      (if (filterPlays t).schema.has_first_down_converted = true then
        some (filterPlays t, (2025 : Int))
      else if (filterPlays t).schema.has_first_down && (filterPlays t).schema.has_touchdown then
        some (deriveFdc (filterPlays t), (2025 : Int))
      else none) := rfl

theorem c7_season_fallback :
    (∀ (ts e1 e2 : String), runPipeline ts (.error e1) (.error e2) = .error ()) ∧
    (∀ (ts e : String) (t : Table) (o : Output),
      runPipeline ts (.error e) (.ok t) = .ok o → o.season = 2024) ∧
    (∀ (ts : String) (t : Table) (f24 : Except String Table) (o : Output),
      runPipeline ts (.ok t) f24 = .ok o → o.season = 2025) := by
  refine ⟨?_, ?_, ?_⟩
  · intro ts e1 e2
    rfl
  · intro ts e t o ho
    unfold runPipeline at ho
    rw [load_eq_fallback e t] at ho
    split_ifs at ho
    · rw [← Except.ok.inj ho]
    · rw [← Except.ok.inj ho]
  · intro ts t f24 o ho
    unfold runPipeline at ho
    rw [load_eq_primary t f24] at ho
    split_ifs at ho
    · rw [← Except.ok.inj ho]
    · rw [← Except.ok.inj ho]

/-- Witness for C7: with a failing 2025 fetch and a 2024 fetch returning a
concrete table, the produced document carries season 2024. -/
theorem c7_season_fallback_witness : outC7.season = 2024 :=
  c7_season_fallback.2.1 "w7" "x" exC1 outC7 rfl

/-! ## Claim C8 -/

/-- C8: the pipeline is deterministic; two runs over the same fetched
record set produce identical documents in every field except
generated_at, which is the only field depending on the wall clock. -/
theorem c8_deterministic (ts1 ts2 : String) (f25 f24 : Except String Table) :
    (runPipeline ts1 f25 f24).map Output.sansTimestamp =
      (runPipeline ts2 f25 f24).map Output.sansTimestamp := by
  unfold runPipeline
  cases hload : load_play_by_play_data f25 f24 with
  | none => rfl
  | some p => rfl

/-! ## Claim C9 -/

/-- C9: a GET whose path carries the url query parameter (the path
contains the text `?url=`, the single-parameter form of the interface)
fetches the named upstream URL with the browser-like user-agent and
returns the body verbatim with status 200; a fetch failure produces
status 500 with a plain-text error body; a GET without the parameter
produces status 400; a preflight OPTIONS produces status 200 with no
body; and every one of these responses starts with the permissive CORS
headers (wildcard origin, GET/POST/OPTIONS methods, all headers allowed,
3600-second preflight cache). -/
theorem c9_forwarder_responses (fetch : String → String → Except String String)
    (path : String) :
    (∀ data : String, hasSubstr "?url=".data path.data = true →
      fetch (requestedUrl path) "Mozilla/5.0" = .ok data →
      do_GET fetch path =
        { status := 200, headers := corsHeaders ++ [("Content-Type", "application/json")],
          body := some data }) ∧
    (∀ e : String, hasSubstr "?url=".data path.data = true →
      fetch (requestedUrl path) "Mozilla/5.0" = .error e →
      do_GET fetch path =
        { status := 500, headers := corsHeaders ++ [("Content-Type", "text/plain")],
          body := some ("Proxy error: " ++ e) }) ∧
    (hasSubstr "?url=".data path.data = false →
      do_GET fetch path =
        { status := 400, headers := corsHeaders ++ [("Content-Type", "text/plain")],
          body := some "Missing \x27url\x27 parameter" }) ∧
    do_OPTIONS = { status := 200, headers := corsHeaders, body := none } ∧
    List.IsPrefix corsHeaders (do_GET fetch path).headers ∧
    List.IsPrefix corsHeaders do_OPTIONS.headers := by
  refine ⟨?_, ?_, ?_, rfl, ?_, ⟨[], List.append_nil _⟩⟩
  · intro data hin hfetch
    simp [do_GET, hin, hfetch]
  · intro e hin hfetch
    simp [do_GET, hin, hfetch]
  · intro hno
    simp [do_GET, hno]
  · unfold do_GET
    split_ifs
    · cases hf : fetch (requestedUrl path) "Mozilla/5.0" with
      | ok data => exact ⟨_, rfl⟩
      | error e => exact ⟨_, rfl⟩
    · exact ⟨_, rfl⟩

/-- Witness for C9: a concrete successful proxied GET. -/
theorem c9_forwarder_responses_witness :
    do_GET (fun u _ua => Except.ok ("got:" ++ u)) "/?url=http%3A%2F%2Fx" =
      { status := 200, headers := corsHeaders ++ [("Content-Type", "application/json")],
        body := some "got:http://x" } :=
  (c9_forwarder_responses (fun u _ua => Except.ok ("got:" ++ u)) "/?url=http%3A%2F%2Fx").1
    "got:http://x" (by decide) (by rfl)

/-! ## Claim C10 -/

/-- C10: the forwarder recognises the url parameter only as the literal
text `?url=` inside the request path; it splits at the first occurrence
and forwards everything after it, URL-decoded, further `&`-separated
parameters included, as the upstream URL; consequently a GET whose url
parameter is preceded by another query parameter is answered with status
400 even though a url parameter is present. -/
theorem c10_url_parameter_recognition :
    (∀ (fetch : String → String → Except String String) (path : String),
      hasSubstr "?url=".data path.data = false → (do_GET fetch path).status = 400) ∧
    (∀ (fetch : String → String → Except String String) (path : String),
      hasSubstr "?url=".data path.data = true →
      do_GET fetch path =
        (match fetch (requestedUrl path) "Mozilla/5.0" with
         | .ok data =>
           { status := 200, headers := corsHeaders ++ [("Content-Type", "application/json")],
             body := some data }
         | .error e =>
           { status := 500, headers := corsHeaders ++ [("Content-Type", "text/plain")],
             body := some ("Proxy error: " ++ e) })) ∧
    do_GET (fun u _ua => Except.ok u) "/?a=1&url=https://x" =
      { status := 400, headers := corsHeaders ++ [("Content-Type", "text/plain")],
        body := some "Missing \x27url\x27 parameter" } ∧
    requestedUrl "/?url=https%3A%2F%2Fx.com%2Fa%3Fb%3D1&c=2" = "https://x.com/a?b=1&c=2" ∧
    requestedUrl "/pre?url=AA?url=BB" = "AA?url=BB" := by
  refine ⟨?_, ?_, by decide, by decide, by decide⟩
  · intro fetch path hno
    simp [do_GET, hno]
  · intro fetch path hin
    simp [do_GET, hin]

/-- Witness for C10: a concrete GET whose url parameter is preceded by
another query parameter receives status 400. -/
theorem c10_url_parameter_recognition_witness :
    (do_GET (fun u _ua => Except.ok u) "/?a=1&url=https://x").status = 400 :=
  c10_url_parameter_recognition.1 (fun u _ua => Except.ok u) "/?a=1&url=https://x" (by decide)

/-! ## Claim C3: lemmas about the descending sort -/

theorem mem_sortDescBy {α : Type} (rate : α → Option Rat) (l : List α) (a : α) :
    a ∈ sortDescBy rate l ↔ a ∈ l := by
  simp only [sortDescBy, List.mem_append, List.mem_insertionSort, List.mem_filter]
  constructor
  · rintro (⟨h1, -⟩ | ⟨h1, -⟩) <;> exact h1
  · intro h1
    cases hr : rate a with
    | none => exact Or.inr ⟨h1, by simp [hr]⟩
    | some q => exact Or.inl ⟨h1, by simp [hr]⟩

theorem rateGE_none (x : Option Rat) : rateGE x none := by
  cases x <;> trivial

theorem sortDescBy_pairwise {α : Type} (rate : α → Option Rat) (l : List α) :
    (sortDescBy rate l).Pairwise (fun a b => rateGE (rate a) (rate b)) := by
  unfold sortDescBy
  apply List.pairwise_append.mpr
  refine ⟨?_, ?_, ?_⟩
  · haveI htot : IsTotal α (fun a b => ((rate b).getD 0) ≤ ((rate a).getD 0)) :=
      ⟨fun a b => le_total _ _⟩
    haveI htr : IsTrans α (fun a b => ((rate b).getD 0) ≤ ((rate a).getD 0)) :=
      ⟨fun a b c hab hbc => le_trans hbc hab⟩
    have hs := List.sorted_insertionSort
      (fun a b => ((rate b).getD 0) ≤ ((rate a).getD 0))
      (l.filter (fun a => (rate a).isSome))
    apply hs.imp_of_mem
    intro a b ha hb hle
    have ha2 : (rate a).isSome = true :=
      (List.mem_filter.mp ((List.mem_insertionSort _).mp ha)).2
    have hb2 : (rate b).isSome = true :=
      (List.mem_filter.mp ((List.mem_insertionSort _).mp hb)).2
    rcases Option.isSome_iff_exists.mp ha2 with ⟨qa, hqa⟩
    rcases Option.isSome_iff_exists.mp hb2 with ⟨qb, hqb⟩
    rw [hqa, hqb]
    show qb ≤ qa
    rw [hqa, hqb] at hle
    simpa using hle
  · apply List.pairwise_of_forall_mem_list
    intro a ha b hb
    have hb2 : (rate b).isNone = true := (List.mem_filter.mp hb).2
    rw [Option.isNone_iff_eq_none.mp hb2]
    exact rateGE_none _
  · intro a ha b hb
    have hb2 : (rate b).isNone = true := (List.mem_filter.mp hb).2
    rw [Option.isNone_iff_eq_none.mp hb2]
    exact rateGE_none _

/-- C3 counterexample: two receivers with equal conversion rates are
emitted in ascending player-id order (A before B), not in their
first-seen-in-source order (B was targeted first): the grouping step has
already sorted the groups by player id, and on this two-element input the
conversion-rate sort leaves the tied pair in that order (an input small
enough that the behaviour of the program is unambiguous). -/
theorem c3_tie_order_counterexample :
    (calculate_player_rates exC3).1 =
      [{ player_id := "A", player_name := some "Al", position := "WR",
         conversion_rate := some (1/2) },
       { player_id := "B", player_name := some "Bob", position := "WR",
         conversion_rate := some (1/2) }] ∧
    (exC3.rows.filterMap (fun r => r.receiver_player_id)).head? = some "B" := by
  constructor
  · simp [calculate_player_rates, receiverData, rusherData, receiverStatsSorted,
      rusherStatsSorted, receiverStatsFiltered, rusherStatsFiltered, receiverRows,
      thirdDownPasses, thirdDownRuns, mkReceiverStat, mkRusherStat, sortDescBy, groupBy,
      meanOpt, exC3, fullSchema, wRecRow, blankRow, strLE, lexLE]
    norm_num
  · decide

/-- C3 (amended): each player list keeps only groups backed by at least
ten targets (receivers) or ten carries (rushers), has at most fifty
entries, and is sorted by conversion_rate descending (null rates, if any,
last); records with equal conversion_rate are not guaranteed to keep
their first-seen-in-source relative order (see the counterexample); and
when the receiver-identity column is present the emitted player result is
the receiver list followed by the rusher list. -/
theorem c3_player_lists (t : Table) :
    (∀ s ∈ receiverStatsSorted t, 10 ≤ s.targets) ∧
    (receiverData t).length ≤ 50 ∧
    (receiverData t).Pairwise (fun a b => rateGE a.conversion_rate b.conversion_rate) ∧
    (∀ s ∈ rusherStatsSorted t, 10 ≤ s.carries) ∧
    (rusherData t).length ≤ 50 ∧
    (rusherData t).Pairwise (fun a b => rateGE a.conversion_rate b.conversion_rate) ∧
    (t.schema.has_receiver_player_id = true →
      (calculate_player_rates t).1 = receiverData t ++ rusherData t) := by
  refine ⟨?_, ?_, ?_, ?_, ?_, ?_, ?_⟩
  · intro s hs
    have h1 : s ∈ sortDescBy (fun s => s.conversion_rate) (receiverStatsFiltered t) :=
      List.mem_of_mem_take hs
    have h2 : s ∈ receiverStatsFiltered t := (mem_sortDescBy _ _ s).mp h1
    have h3 := (List.mem_filter.mp h2).1
    exact of_decide_eq_true (List.mem_filter.mp h3).2
  · show ((receiverStatsSorted t).map _).length ≤ 50
    rw [List.length_map]
    exact List.length_take_le _ _
  · show (((receiverStatsSorted t).map _).Pairwise _)
    rw [List.pairwise_map]
    exact List.Pairwise.sublist (List.take_sublist _ _) (sortDescBy_pairwise _ _)
  · intro s hs
    have h1 : s ∈ sortDescBy (fun s => s.conversion_rate) (rusherStatsFiltered t) :=
      List.mem_of_mem_take hs
    have h2 : s ∈ rusherStatsFiltered t := (mem_sortDescBy _ _ s).mp h1
    have h3 := (List.mem_filter.mp h2).1
    exact of_decide_eq_true (List.mem_filter.mp h3).2
  · unfold rusherData
    split
    · rw [List.length_map]
      exact List.length_take_le _ _
    · simp
  · unfold rusherData
    split
    · rw [List.pairwise_map]
      exact List.Pairwise.sublist (List.take_sublist _ _) (sortDescBy_pairwise _ _)
    · exact List.Pairwise.nil
  · intro h
    simp [calculate_player_rates, h]

/-- Witness for C3: on the concrete table the emitted result is the
receiver list followed by the rusher list, and a concrete surviving
receiver group is backed by at least ten targets. -/
theorem c3_player_lists_witness :
    (calculate_player_rates exC3).1 = receiverData exC3 ++ rusherData exC3 ∧
    10 ≤ ({ player_id := "A", player_name := some "Al", catch_rate := some 1,
            conversion_rate := some (1/2), targets := 10 } : ReceiverStat).targets :=
  ⟨(c3_player_lists exC3).2.2.2.2.2.2 rfl,
   (c3_player_lists exC3).1 _ (by
    simp [receiverStatsSorted, receiverStatsFiltered, receiverRows, thirdDownPasses,
      mkReceiverStat, sortDescBy, groupBy, meanOpt, exC3, fullSchema, wRecRow, blankRow,
      strLE, lexLE]
    norm_num)⟩
